import Mathlib

/-!
Verification of the session-transcript lifecycle of the Edge Study Buddy
chat worker (`src/index.ts`): a shallow embedding of `handleChat`,
`loadHistory`, `saveHistory` and `trimHistory`, together with theorems
settling the specification's claims about windowing, seeding, validation,
failure handling and persistence.

Modelling conventions:
- A `ChatMessage` mirrors the TypeScript record `{ role, content }`; since
  TypeScript types are erased at runtime and `loadHistory` performs no
  element validation, `role` is an arbitrary `String` (the spec's closed
  role set becomes the predicate `wellFormedTurn`).  The spec's
  "instruction" role is the source's literal string "system".
- The raw value held in the key-value store is abstracted by the outcome
  of `JSON.parse` on it (`StoredValue`): absent (no entry or empty
  string, both falsy in JS), a value on which `JSON.parse` throws, a
  parseable non-array value, or a parseable array of records.
- The inference binding `env.AI.run` is abstracted by `AiOutcome`: the
  call either throws, or succeeds with the `.response` field being a
  string or nullish (`none`).
- `handleChat` is a pure function of the parsed request, the stored
  value for the session key, and the inference outcome; its result
  records the HTTP status, response-body fields, the stored value after
  the call, and whether the key-value store / inference binding was
  reached (for the "no side effects before validation" claims).
-/

namespace EdgeStudyBuddy

/-- One chat message as stored and sent to inference: `{ role, content }`.
`role` is a raw string because the source performs no runtime validation
of parsed history elements. -/
structure ChatMessage where
  role : String
  content : String
deriving DecidableEq, Repr

/-- The fixed system preamble (`SYSTEM_PROMPT` template literal in the
source, including its leading and trailing newlines; the source always
uses it trimmed). -/
def SYSTEM_PROMPT : String :=
  "\nYou are Edge Study Buddy, a friendly but concise study assistant.\n- Keep answers focused and structured.\n- When user asks to review or continue, use context from previous messages.\n- If the user is studying security / systems / AI, tailor examples to that.\n"

/-- `const MAX_HISTORY_MESSAGES = 16` — the window bound `N`. -/
def MAX_HISTORY_MESSAGES : Nat := 16

/-- JavaScript `s.trim()`: remove leading and trailing whitespace.
Implemented over the character list so that it is kernel-evaluable
(Lean's own `String.trim` is defined by well-founded recursion); it
agrees with the JS behaviour on the ASCII whitespace that occurs in
this program. -/
def jsTrim (s : String) : String :=
  ⟨((s.data.dropWhile Char.isWhitespace).reverse.dropWhile Char.isWhitespace).reverse⟩

/-- The instruction turn the source seeds at position 0:
`{ role: "system", content: SYSTEM_PROMPT.trim() }`. -/
def instructionTurn : ChatMessage :=
  ⟨"system", jsTrim SYSTEM_PROMPT⟩

/-- JavaScript `arr.slice(-m)`: the last `m` elements, except that
`slice(-0)` is `slice(0)`, the whole array. -/
def jsSliceLast (l : List α) (m : Nat) : List α :=
  if m = 0 then l else l.drop (l.length - m)

/-- `trimHistory(history, maxMessages)` from the source: return the list
unchanged when `history.length <= maxMessages + 1`, otherwise keep
`history[0]` followed by `history.slice(1).slice(-maxMessages)`. -/
def trimHistory (history : List ChatMessage) (maxMessages : Nat) : List ChatMessage :=
  if history.length ≤ maxMessages + 1 then
    history
  else
    match history with
    | [] => []
    | systemMessage :: rest => systemMessage :: jsSliceLast rest maxMessages

/-- The stored value for a session key, abstracted by what `JSON.parse`
does with it: no entry (or the falsy empty string), a value on which
parsing throws, a parseable non-array value, or a parseable array of
records (returned by `loadHistory` without element validation). -/
inductive StoredValue where
  | absent
  | unparseable
  | nonArray
  | array (msgs : List ChatMessage)
deriving DecidableEq, Repr

/-- `loadHistory`: `[]` when the entry is absent, when `JSON.parse`
throws, or when the parsed value is not an array; otherwise the parsed
array as-is. -/
def loadHistory : StoredValue → List ChatMessage
  | .absent => []
  | .unparseable => []
  | .nonArray => []
  | .array msgs => msgs

/-- A JSON body field as the validation code sees it: missing from the
object, present but not a string, or a string. -/
inductive JsField where
  | absent
  | nonString
  | str (s : String)
deriving DecidableEq, Repr

/-- The check `!body.f || typeof body.f !== "string"` passes exactly for
non-empty strings (the empty string is falsy in JS). -/
def strField : JsField → Option String
  | .str s => if s = "" then none else some s
  | _ => none

/-- A parsed chat request: either `request.json()` throws, or it yields
an object whose `sessionId` and `message` fields are as given. -/
inductive ChatRequest where
  | badJson
  | body (sessionId message : JsField)
deriving DecidableEq, Repr

/-- The outcome of `env.AI.run`: the awaited call throws, or succeeds
with `.response` a string or nullish (`none`). -/
inductive AiOutcome where
  | failure
  | success (response : Option String)
deriving DecidableEq, Repr

/-- Steps 2–4 of the per-turn pipeline applied to a loaded history:
seed the instruction turn when empty, append the user turn, trim. -/
def windowedWithUser (userMessage : String) (history0 : List ChatMessage) : List ChatMessage :=
  let history1 :=
    if history0.length = 0 then history0 ++ [⟨"system", jsTrim SYSTEM_PROMPT⟩] else history0
  let history2 := history1 ++ [⟨"user", userMessage⟩]
  trimHistory history2 MAX_HISTORY_MESSAGES

/-- The full transcript update of one successful turn: steps 2–4 then
the assistant turn appended; this is exactly what `saveHistory`
persists and what the response's `history` field carries. -/
def stepTranscript (userMessage replyText : String) (history0 : List ChatMessage) : List ChatMessage :=
  windowedWithUser userMessage history0 ++ [⟨"assistant", replyText⟩]

/-- The observable result of `handleChat`: HTTP status, the response
body's `error`, `reply` and `history` fields, the stored value for the
session key after the call, and whether the key-value store /
inference binding was reached. -/
structure ChatOutcome where
  status : Nat
  error : Option String
  reply : Option String
  history : Option (List ChatMessage)
  store : StoredValue
  kvGetAccessed : Bool
  aiAccessed : Bool
deriving DecidableEq, Repr

/-- `handleChat` from the source, as a function of the parsed request,
the stored value for the session key, and the inference outcome.
An unparseable body throws inside the `try`, caught as a 500; field
validation happens before `loadHistory` and `env.AI.run`; an inference
throw is caught as a 500 with no `saveHistory`; on success the reply is
`aiResponse.response ?? "[no response]"` and the updated transcript is
persisted. -/
def handleChat (req : ChatRequest) (store : StoredValue) (ai : AiOutcome) : ChatOutcome :=
  match req with
  | .badJson => ⟨500, some "Internal error", none, none, store, false, false⟩
  | .body sessionId message =>
    match strField sessionId with
    | none => ⟨400, some "Missing or invalid sessionId", none, none, store, false, false⟩
    | some _ =>
      match strField message with
      | none => ⟨400, some "Missing or invalid message", none, none, store, false, false⟩
      | some m =>
        let userMessage := jsTrim m
        let history0 := loadHistory store
        match ai with
        | .failure => ⟨500, some "Internal error", none, none, store, true, true⟩
        | .success response =>
          let replyText := response.getD "[no response]"
          let history4 := stepTranscript userMessage replyText history0
          ⟨200, none, some replyText, some history4, .array history4, true, true⟩

/-- A turn as the specification's data model demands it: role in the
closed set, non-empty content. -/
def wellFormedTurn (t : ChatMessage) : Prop :=
  (t.role = "system" ∨ t.role = "user" ∨ t.role = "assistant") ∧ t.content ≠ ""

instance (t : ChatMessage) : Decidable (wellFormedTurn t) := by
  unfold wellFormedTurn; infer_instance

/-- Transcripts the system itself can have persisted: those reached from
the empty transcript by complete successful turns. -/
inductive Reachable : List ChatMessage → Prop where
  | init : Reachable []
  | step (u r : String) (h : List ChatMessage) :
      Reachable h → Reachable (stepTranscript u r h)

/-! ### Helper lemmas about `trimHistory` -/

lemma trimHistory_of_le (h : List ChatMessage) (n : Nat) (hle : h.length ≤ n + 1) :
    trimHistory h n = h := by
  simp [trimHistory, hle]

lemma trimHistory_cons_of_gt (s : ChatMessage) (rest : List ChatMessage) (n : Nat)
    (hgt : n < rest.length) (hn : n ≠ 0) :
    trimHistory (s :: rest) n = s :: rest.drop (rest.length - n) := by
  have hnot : ¬ (s :: rest).length ≤ n + 1 := by
    simp only [List.length_cons]; omega
  unfold trimHistory
  rw [if_neg hnot]
  show s :: jsSliceLast rest n = s :: rest.drop (rest.length - n)
  unfold jsSliceLast
  rw [if_neg hn]

lemma trimHistory_cons_drop (s : ChatMessage) (rest : List ChatMessage) (n : Nat) :
    ∃ k, trimHistory (s :: rest) n = s :: rest.drop k := by
  by_cases hle : (s :: rest).length ≤ n + 1
  · exact ⟨0, by simpa using trimHistory_of_le _ _ hle⟩
  · by_cases hn : n = 0
    · refine ⟨0, ?_⟩
      unfold trimHistory
      rw [if_neg hle]
      simp [jsSliceLast, hn]
    · have hgt : n < rest.length := by
        simp only [List.length_cons] at hle; omega
      exact ⟨rest.length - n, trimHistory_cons_of_gt s rest n hgt hn⟩

lemma trimHistory_length_le (h : List ChatMessage) :
    (trimHistory h MAX_HISTORY_MESSAGES).length ≤ MAX_HISTORY_MESSAGES + 1 := by
  cases h with
  | nil => simp [trimHistory]
  | cons s rest =>
    by_cases hle : (s :: rest).length ≤ MAX_HISTORY_MESSAGES + 1
    · simpa [trimHistory_of_le _ _ hle] using hle
    · have hgt : MAX_HISTORY_MESSAGES < rest.length := by
        simp only [List.length_cons] at hle; omega
      rw [trimHistory_cons_of_gt s rest _ hgt (by simp [MAX_HISTORY_MESSAGES])]
      simp only [List.length_cons, List.length_drop]
      omega

/-! ### Concrete example transcripts used by witnesses and counterexamples -/

/-- Seventeen non-instruction turns. -/
def ex17rest : List ChatMessage :=
  (List.range 17).map fun i => ⟨"user", "m" ++ toString i⟩

/-- Eighteen non-instruction turns. -/
def ex18rest : List ChatMessage :=
  (List.range 18).map fun i => ⟨"user", "m" ++ toString i⟩

/-! ### C1: the windowing operation -/

/-- Claim C1: with the fixed bound `N = 16`, `trimHistory` returns a
transcript of at most `N + 1` turns unchanged, and otherwise returns the
turn at position 0 followed by exactly the last `N` turns of the
remainder in their original relative order. -/
theorem C1_trimHistory_window (h : List ChatMessage) :
    (h.length ≤ MAX_HISTORY_MESSAGES + 1 → trimHistory h MAX_HISTORY_MESSAGES = h) ∧
    (MAX_HISTORY_MESSAGES + 1 < h.length →
      trimHistory h MAX_HISTORY_MESSAGES =
        h.take 1 ++ (h.drop 1).rtake MAX_HISTORY_MESSAGES) := by
  refine ⟨trimHistory_of_le h MAX_HISTORY_MESSAGES, fun hgt => ?_⟩
  cases h with
  | nil => simp at hgt
  | cons s rest =>
    have hg : MAX_HISTORY_MESSAGES < rest.length := by
      simp only [List.length_cons] at hgt; omega
    rw [trimHistory_cons_of_gt s rest _ hg (by simp [MAX_HISTORY_MESSAGES])]
    simp [List.rtake]

/-- Witness for C1 at a transcript of 1 turn (unchanged) and one of 18
turns (trimmed to position 0 plus the last 16 of the remainder). -/
theorem C1_witness :
    trimHistory [instructionTurn] MAX_HISTORY_MESSAGES = [instructionTurn] ∧
    trimHistory (instructionTurn :: ex17rest) MAX_HISTORY_MESSAGES =
      (instructionTurn :: ex17rest).take 1 ++
        ((instructionTurn :: ex17rest).drop 1).rtake MAX_HISTORY_MESSAGES :=
  ⟨(C1_trimHistory_window [instructionTurn]).1 (by decide),
   (C1_trimHistory_window (instructionTurn :: ex17rest)).2 (by decide)⟩

/-! ### C4: the windowing boundary -/

/-- Counterexample to C4: a transcript with exactly 17 non-instruction
turns after the user-turn append (18 turns total) IS trimmed by the
windowing step (its length drops to 17), contrary to the claim that it
is left untrimmed. -/
theorem C4_counterexample :
    ex17rest.length = 17 ∧ (∀ t ∈ ex17rest, t.role ≠ "system") ∧
    (trimHistory (instructionTurn :: ex17rest) MAX_HISTORY_MESSAGES).length = 17 ∧
    trimHistory (instructionTurn :: ex17rest) MAX_HISTORY_MESSAGES ≠
      instructionTurn :: ex17rest := by
  refine ⟨by decide, by decide, ?_, ?_⟩
  · rw [trimHistory_cons_of_gt instructionTurn ex17rest _ (by decide) (by decide)]
    decide
  · intro heq
    have hlen := congrArg List.length heq
    rw [trimHistory_cons_of_gt instructionTurn ex17rest _ (by decide) (by decide)] at hlen
    simp only [List.length_cons, List.length_drop] at hlen
    revert hlen
    decide

/-- Claim C4 as amended: with `N = 16`, a transcript with at most 16
non-instruction turns after the user-turn append is not trimmed;
reaching 17 non-instruction turns trims to the instruction turn plus
the 16 most recent, dropping the oldest 1; 18 non-instruction turns
trim to the instruction turn plus the 16 most recent, dropping the
oldest 2. -/
theorem C4_amended_boundary (rest : List ChatMessage) :
    (rest.length ≤ MAX_HISTORY_MESSAGES →
      trimHistory (instructionTurn :: rest) MAX_HISTORY_MESSAGES =
        instructionTurn :: rest) ∧
    (rest.length = 17 →
      trimHistory (instructionTurn :: rest) MAX_HISTORY_MESSAGES =
        instructionTurn :: rest.drop 1) ∧
    (rest.length = 18 →
      trimHistory (instructionTurn :: rest) MAX_HISTORY_MESSAGES =
        instructionTurn :: rest.drop 2) := by
  refine ⟨fun hle => ?_, fun h17 => ?_, fun h18 => ?_⟩
  · exact trimHistory_of_le _ _ (by simp only [List.length_cons]; omega)
  · rw [trimHistory_cons_of_gt instructionTurn rest _
      (by simp only [MAX_HISTORY_MESSAGES]; omega) (by decide), h17]
    norm_num [MAX_HISTORY_MESSAGES]
  · rw [trimHistory_cons_of_gt instructionTurn rest _
      (by simp only [MAX_HISTORY_MESSAGES]; omega) (by decide), h18]
    norm_num [MAX_HISTORY_MESSAGES]

/-- Witness for the amended C4 at concrete transcripts with 0, 17 and 18
non-instruction turns. -/
theorem C4_witness :
    trimHistory [instructionTurn] MAX_HISTORY_MESSAGES = [instructionTurn] ∧
    trimHistory (instructionTurn :: ex17rest) MAX_HISTORY_MESSAGES =
      instructionTurn :: ex17rest.drop 1 ∧
    trimHistory (instructionTurn :: ex18rest) MAX_HISTORY_MESSAGES =
      instructionTurn :: ex18rest.drop 2 :=
  ⟨(C4_amended_boundary []).1 (by decide),
   (C4_amended_boundary ex17rest).2.1 (by decide),
   (C4_amended_boundary ex18rest).2.2 (by decide)⟩

/-! ### C2: no partial commit on inference failure -/

/-- Claim C2: for every session store state and every valid request, if
the inference call fails then `handleChat` fails as a whole with the
server-error response and nothing is persisted: the stored value after
the call equals the stored value before it. -/
theorem C2_no_partial_commit (sid m : String) (store : StoredValue)
    (hs : sid ≠ "") (hm : m ≠ "") :
    handleChat (.body (.str sid) (.str m)) store .failure =
      ⟨500, some "Internal error", none, none, store, true, true⟩ := by
  simp [handleChat, strField, hs, hm]

/-- Witness for C2 at a concrete session with one stored turn. -/
theorem C2_witness :
    handleChat (.body (.str "s1") (.str "hi")) (.array [instructionTurn]) .failure =
      ⟨500, some "Internal error", none, none, .array [instructionTurn], true, true⟩ :=
  C2_no_partial_commit "s1" "hi" (.array [instructionTurn]) (by decide) (by decide)

/-! ### C6: validation of the message field -/

/-- Counterexample to C6: a whitespace-only message is a non-empty
string, so it passes the truthiness check; the call reaches both the
key-value store and the inference binding and succeeds with status 200
even though the message trims to the empty string. -/
theorem C6_counterexample :
    jsTrim " " = "" ∧
    (handleChat (.body (.str "s1") (.str " ")) .absent (.success (some "ok"))).status = 200 ∧
    (handleChat (.body (.str "s1") (.str " ")) .absent (.success (some "ok"))).kvGetAccessed
      = true ∧
    (handleChat (.body (.str "s1") (.str " ")) .absent (.success (some "ok"))).aiAccessed
      = true := by
  exact ⟨rfl, rfl, rfl, rfl⟩

/-- Claim C6 as amended: a message that is the empty string fails with
the bad-request response before any storage or inference access; every
non-empty string message — including a whitespace-only one, whose
content trims to the empty string — passes validation and the call
reaches both the key-value store and the inference binding. -/
theorem C6_amended_message_validation (s : String) (hs : s ≠ "")
    (store : StoredValue) (ai : AiOutcome) :
    handleChat (.body (.str s) (.str "")) store ai =
      ⟨400, some "Missing or invalid message", none, none, store, false, false⟩ ∧
    ∀ m : String, m ≠ "" →
      (handleChat (.body (.str s) (.str m)) store ai).kvGetAccessed = true ∧
      (handleChat (.body (.str s) (.str m)) store ai).aiAccessed = true := by
  constructor
  · simp [handleChat, strField, hs]
  · intro m hm
    cases ai <;> simp [handleChat, strField, hs, hm]

/-- Witness for the amended C6: the empty message is rejected, the
whitespace-only message reaches both storage and inference. -/
theorem C6_witness :
    handleChat (.body (.str "s1") (.str "")) .absent .failure =
      ⟨400, some "Missing or invalid message", none, none, .absent, false, false⟩ ∧
    (handleChat (.body (.str "s1") (.str " ")) .absent .failure).kvGetAccessed = true ∧
    (handleChat (.body (.str "s1") (.str " ")) .absent .failure).aiAccessed = true :=
  ⟨(C6_amended_message_validation "s1" (by decide) .absent .failure).1,
   (C6_amended_message_validation "s1" (by decide) .absent .failure).2 " " (by decide)⟩

/-! ### C9: validation of missing or non-string fields -/

/-- Counterexample to C9: the rejection reason string in the code is
capitalized ("Missing or invalid sessionId"), not the claim's
"missing or invalid sessionId". -/
theorem C9_counterexample :
    (handleChat (.body .absent (.str "hi")) .absent (.success none)).status = 400 ∧
    (handleChat (.body .absent (.str "hi")) .absent (.success none)).error =
      some "Missing or invalid sessionId" ∧
    "Missing or invalid sessionId" ≠ "missing or invalid sessionId" :=
  ⟨rfl, rfl, by decide⟩

/-- Claim C9 as amended: a missing, non-string or empty-string
`sessionId` is rejected with status 400 and reason
"Missing or invalid sessionId" before the key-value store or the
inference binding is reached; with a valid `sessionId`, a missing,
non-string or empty-string `message` is likewise rejected with reason
"Missing or invalid message". -/
theorem C9_amended_validation (sid message : JsField) (store : StoredValue)
    (ai : AiOutcome) :
    ((sid = .absent ∨ sid = .nonString ∨ sid = .str "") →
      handleChat (.body sid message) store ai =
        ⟨400, some "Missing or invalid sessionId", none, none, store, false, false⟩) ∧
    (∀ s : String, s ≠ "" → sid = .str s →
      (message = .absent ∨ message = .nonString ∨ message = .str "") →
      handleChat (.body sid message) store ai =
        ⟨400, some "Missing or invalid message", none, none, store, false, false⟩) := by
  constructor
  · rintro (rfl | rfl | rfl) <;> simp [handleChat, strField]
  · rintro s hs rfl (rfl | rfl | rfl) <;> simp [handleChat, strField, hs]

/-- Witness for the amended C9 at a missing `sessionId` and at a
non-string `message`. -/
theorem C9_witness :
    handleChat (.body .absent (.str "hi")) .absent (.success none) =
      ⟨400, some "Missing or invalid sessionId", none, none, .absent, false, false⟩ ∧
    handleChat (.body (.str "s1") .nonString) .absent (.success none) =
      ⟨400, some "Missing or invalid message", none, none, .absent, false, false⟩ :=
  ⟨(C9_amended_validation .absent (.str "hi") .absent (.success none)).1 (Or.inl rfl),
   (C9_amended_validation (.str "s1") .nonString .absent (.success none)).2 "s1"
     (by decide) rfl (Or.inr (Or.inl rfl))⟩

/-! ### C10: unparseable request body -/

/-- Claim C10: a POST body that is not parseable JSON yields the generic
internal-error response (status 500, body error "Internal error"), not a
bad-request response, and neither the key-value store nor the inference
binding is accessed; the stored value is unchanged. -/
theorem C10_bad_json (store : StoredValue) (ai : AiOutcome) :
    handleChat .badJson store ai =
      ⟨500, some "Internal error", none, none, store, false, false⟩ := rfl

/-! ### C5: fail-open loading of stored history -/

/-- Observable equality of two `handleChat` results from the caller's
point of view: same status and same response-body fields. -/
def sameResponse (a b : ChatOutcome) : Prop :=
  a.status = b.status ∧ a.error = b.error ∧ a.reply = b.reply ∧ a.history = b.history

lemma handleChat_load_congr (req : ChatRequest) (ai : AiOutcome) (s1 s2 : StoredValue)
    (hload : loadHistory s1 = loadHistory s2) :
    sameResponse (handleChat req s1 ai) (handleChat req s2 ai) := by
  cases req with
  | badJson => exact ⟨rfl, rfl, rfl, rfl⟩
  | body sid msg =>
    cases hsid : strField sid with
    | none => simp [handleChat, hsid, sameResponse]
    | some s =>
      cases hmsg : strField msg with
      | none => simp [handleChat, hsid, hmsg, sameResponse]
      | some m =>
        cases ai with
        | failure => simp [handleChat, hsid, hmsg, sameResponse]
        | success r => simp [handleChat, hsid, hmsg, sameResponse, hload]

/-- Counterexample to C5: a stored value that parses as an array whose
only element is not a well-formed Turn (role outside the closed set,
empty content) is returned as-is by the load step, not replaced by the
empty transcript. -/
theorem C5_counterexample :
    ¬ wellFormedTurn ⟨"banana", ""⟩ ∧
    loadHistory (.array [⟨"banana", ""⟩]) = [⟨"banana", ""⟩] ∧
    loadHistory (.array [⟨"banana", ""⟩]) ≠ [] :=
  ⟨by decide, rfl, by decide⟩

/-- Claim C5 as amended: the load step yields the empty transcript
exactly when the stored value is absent, is not parseable JSON, or
parses to a non-array; for those stored values a call is observably
identical to a call on an absent session (it seeds fresh and follows
the same path).  A value that parses to an array is returned without
any element validation. -/
theorem C5_amended_fail_open (req : ChatRequest) (ai : AiOutcome)
    (msgs : List ChatMessage) :
    loadHistory .absent = [] ∧
    loadHistory .unparseable = [] ∧
    loadHistory .nonArray = [] ∧
    loadHistory (.array msgs) = msgs ∧
    sameResponse (handleChat req .unparseable ai) (handleChat req .absent ai) ∧
    sameResponse (handleChat req .nonArray ai) (handleChat req .absent ai) :=
  ⟨rfl, rfl, rfl, rfl,
   handleChat_load_congr req ai .unparseable .absent rfl,
   handleChat_load_congr req ai .nonArray .absent rfl⟩

/-! ### C7: empty inference reply -/

/-- Counterexample to C7: when the backend succeeds but its `response`
field is the empty string — no usable reply text — the code does NOT
substitute the sentinel: the `??` fallback fires only on a nullish
field, so the empty string is returned and persisted verbatim, and the
stored assistant turn's content is empty (not a well-formed Turn). -/
theorem C7_counterexample :
    (handleChat (.body (.str "s1") (.str "hi")) .absent (.success (some ""))).reply =
      some "" ∧
    (handleChat (.body (.str "s1") (.str "hi")) .absent (.success (some ""))).store =
      .array [instructionTurn, ⟨"user", "hi"⟩, ⟨"assistant", ""⟩] ∧
    ¬ wellFormedTurn ⟨"assistant", ""⟩ ∧
    ("" : String) ≠ "[no response]" :=
  ⟨rfl, rfl, by decide, by decide⟩

/-- Claim C7 as amended: the sentinel "[no response]" is substituted
exactly when the backend succeeds with an absent/nullish `response`
field; the turn then completes with status 200 and the transcript with
the sentinel assistant turn is persisted normally.  When the field is a
present string it is used verbatim, even when empty. -/
theorem C7_amended_sentinel (s m : String) (hs : s ≠ "") (hm : m ≠ "")
    (store : StoredValue) :
    (handleChat (.body (.str s) (.str m)) store (.success none)).status = 200 ∧
    (handleChat (.body (.str s) (.str m)) store (.success none)).reply =
      some "[no response]" ∧
    (handleChat (.body (.str s) (.str m)) store (.success none)).store =
      .array (stepTranscript (jsTrim m) "[no response]" (loadHistory store)) ∧
    ∀ r : String,
      (handleChat (.body (.str s) (.str m)) store (.success (some r))).reply = some r := by
  refine ⟨?_, ?_, ?_, fun r => ?_⟩ <;> simp [handleChat, strField, hs, hm]

/-- Witness for the amended C7 on a fresh session. -/
theorem C7_witness :
    (handleChat (.body (.str "s1") (.str "hi")) .absent (.success none)).reply =
      some "[no response]" ∧
    (handleChat (.body (.str "s1") (.str "hi")) .absent (.success (some "ok"))).reply =
      some "ok" :=
  ⟨(C7_amended_sentinel "s1" "hi" (by decide) (by decide) .absent).2.1,
   (C7_amended_sentinel "s1" "hi" (by decide) (by decide) .absent).2.2.2 "ok"⟩

/-! ### C8: bound on the persisted transcript length -/

lemma stepTranscript_length_le (u r : String) (h : List ChatMessage) :
    (stepTranscript u r h).length ≤ MAX_HISTORY_MESSAGES + 2 := by
  have hb := trimHistory_length_le
    ((if h.length = 0 then h ++ [⟨"system", jsTrim SYSTEM_PROMPT⟩] else h) ++ [⟨"user", u⟩])
  simp only [stepTranscript, windowedWithUser, List.length_append, List.length_cons,
    List.length_nil] at hb ⊢
  omega

/-- Claim C8: after any successful call — whatever the prior stored
value, hence across every sequence of successful calls — the persisted
transcript has at most `N + 2 = 18` entries, because windowing is
applied before the assistant reply is appended. -/
theorem C8_persisted_bound (sid m : String) (hs : sid ≠ "") (hm : m ≠ "")
    (store : StoredValue) (response : Option String) :
    ∃ l, (handleChat (.body (.str sid) (.str m)) store (.success response)).store =
        .array l ∧
      l.length ≤ MAX_HISTORY_MESSAGES + 2 := by
  refine ⟨stepTranscript (jsTrim m) (response.getD "[no response]") (loadHistory store),
    ?_, stepTranscript_length_le _ _ _⟩
  simp [handleChat, strField, hs, hm]

/-- Witness for C8 on a stored transcript of 20 junk turns: the
persisted transcript after the call is within the bound. -/
theorem C8_witness :
    ∃ l, (handleChat (.body (.str "s1") (.str "hi")) (.array ex18rest)
        (.success (some "ok"))).store = .array l ∧
      l.length ≤ MAX_HISTORY_MESSAGES + 2 :=
  C8_persisted_bound "s1" "hi" (by decide) (by decide) (.array ex18rest) (some "ok")

/-! ### C3: the instruction turn is unique and seeded once -/

lemma reachable_inv (h : List ChatMessage) (hr : Reachable h) :
    h = [] ∨ ∃ rest, h = instructionTurn :: rest ∧ ∀ t ∈ rest, t.role ≠ "system" := by
  induction hr with
  | init => exact Or.inl rfl
  | step u r h' hr' ih =>
    right
    have huser : ("user" : String) ≠ "system" := by decide
    have hasst : ("assistant" : String) ≠ "system" := by decide
    rcases ih with rfl | ⟨rest, rfl, hclean⟩
    · refine ⟨[⟨"user", u⟩, ⟨"assistant", r⟩], rfl, ?_⟩
      intro t ht
      simp only [List.mem_cons, List.not_mem_nil, or_false] at ht
      rcases ht with rfl | rfl
      · exact huser
      · exact hasst
    · obtain ⟨k, hk⟩ :=
        trimHistory_cons_drop instructionTurn (rest ++ [⟨"user", u⟩]) MAX_HISTORY_MESSAGES
      refine ⟨(rest ++ [(⟨"user", u⟩ : ChatMessage)]).drop k ++
        [(⟨"assistant", r⟩ : ChatMessage)], ?_, ?_⟩
      · have hne : (instructionTurn :: rest).length ≠ 0 := by simp
        simp only [stepTranscript, windowedWithUser, if_neg hne, List.cons_append]
        rw [hk]
        simp [List.cons_append]
      · intro t ht
        rcases List.mem_append.mp ht with h1 | h2
        · rcases List.mem_append.mp (List.mem_of_mem_drop h1) with h3 | h4
          · exact hclean t h3
          · simp only [List.mem_singleton] at h4
            subst h4
            exact huser
        · simp only [List.mem_singleton] at h2
          subst h2
          exact hasst

/-- Claim C3: every non-empty transcript the system itself produces has
the instruction turn at position 0 and no other turn with the
instruction role; since seeding happens only on an empty loaded
transcript, no later call can insert a second instruction turn. -/
theorem C3_instruction_unique (h : List ChatMessage) (hr : Reachable h) (hne : h ≠ []) :
    ∃ rest, h = instructionTurn :: rest ∧ ∀ t ∈ rest, t.role ≠ "system" :=
  (reachable_inv h hr).resolve_left hne

/-- Witness for C3 at the transcript produced by a first successful
turn on a fresh session. -/
theorem C3_witness :
    ∃ rest, stepTranscript "hi" "ok" [] = instructionTurn :: rest ∧
      ∀ t ∈ rest, t.role ≠ "system" :=
  C3_instruction_unique (stepTranscript "hi" "ok" [])
    (Reachable.step "hi" "ok" [] Reachable.init)
    (by
      intro hcontra
      have hlen := congrArg List.length hcontra
      revert hlen
      decide)

end EdgeStudyBuddy
